import Mathlib

/-!
Verification of the pipeline-orchestration and deployment-retry subsystem of
the instantprod proposal generator.

The definitions below are a shallow embedding of the Python sources:
- `execution/deploy_proposal.py` (Deployment Client: retry loop, backoff,
  success-URL resolution, last-deployment record),
- `mcp_server.py` (Step Runner `run_script`, the tool handlers, and the
  `handle_quick_proposal` orchestrator),
- `execution/quick_proposal.py` (the CLI orchestrator's `run_script`).

Machine reals (the float arithmetic of `time.sleep` arguments) are modelled
with rationals; the jitter drawn by `random.uniform(0, 0.25)` is modelled as
an arbitrary function `jit : Nat -> Rat` about which theorems may assume the
documented bounds.
-/

namespace InstantProd

/-! ## Python string helpers

All string manipulation is carried out on `List Char` (via `String.data`)
so that every definition evaluates by kernel reduction. -/

/-- Python's `\s` (and the `str.strip()` default set) for ASCII text:
space, tab, newline, carriage return, vertical tab, form feed. -/
def pyWs (c : Char) : Bool :=
  c == ' ' || c == '\t' || c == '\n' || c == '\r' || c == '\x0b' || c == '\x0c'

/-- Python `str.strip()` on ASCII text: drop whitespace from both ends. -/
def pyStrip (s : String) : String :=
  String.mk (((s.data.dropWhile pyWs).reverse.dropWhile pyWs).reverse)

/-- Python `str.lower()` on ASCII text. -/
def pyLower (s : String) : String :=
  String.mk (s.data.map Char.toLower)

/-- Split a character list at newline characters (Python
`str.split("\n")` / iteration over lines). -/
def splitLinesChars : List Char → List (List Char)
  | [] => [[]]
  | c :: rest =>
    if c == '\n' then [] :: splitLinesChars rest
    else
      match splitLinesChars rest with
      | [] => [[c]]
      | l :: ls => (c :: l) :: ls

/-- Python `needle in haystack` on character lists. -/
def listContainsSub (needle : List Char) : List Char → Bool
  | [] => List.isPrefixOf needle []
  | c :: rest => List.isPrefixOf needle (c :: rest) || listContainsSub needle rest

/-- Python `"failed" in s.lower()`: the substring test
`handle_quick_proposal` applies to each stage handler's diagnostic text
(`mcp_server.py` lines 696, 715, 733, 744). -/
def containsFailed (s : String) : Bool :=
  listContainsSub "failed".toList (pyLower s).data

/-! ## Deployment Client (`execution/deploy_proposal.py`) -/

/-- Structured view of the JSON body of a successful Vercel deployment
response, as read by `deploy_proposal.py` lines 138-145:
`data.get('aliasFinal')`, `data.get('alias')`, `data['url']`. -/
structure RespData where
  aliasFinal : Option String
  aliasList : Option (List String)
  rawUrl : String
deriving Repr, DecidableEq

/-- Outcome of one `requests.post` call inside the retry loop: either a
connection-level exception (`requests.exceptions.Timeout` or
`ConnectionError`, line 122) whose `str()` is `msg`, or an HTTP response
with a status code, a `.text` body, and (used only on status 200) the
parsed JSON body. -/
inductive AttemptOutcome where
  | exc (msg : String)
  | resp (status : Nat) (body : String) (data : RespData)
deriving Repr, DecidableEq

/-- How the retry loop of `deploy_proposal.py` (lines 101-131) ends:
- `success`: `break` on `status_code == 200` (line 113);
- `terminal`: immediate `return 1` on a non-retryable status (lines 117-119);
- `exhausted`: fell out of the loop with `last_error` set, carrying the
  status code of the last response received, if any (for the
  `status_part` of the failure message, line 134);
- `noRequest`: the loop body never ran (`max_attempts < 1`), leaving
  `response = None` and `last_error = None`. -/
inductive LoopEnd where
  | success (status : Nat) (body : String) (data : RespData)
  | terminal (status : Nat) (body : String)
  | exhausted (lastError : String) (lastStatus : Option Nat)
  | noRequest
deriving Repr, DecidableEq

/-- Line 117 of `deploy_proposal.py`, negated: the statuses that do NOT
take the immediate-failure branch
`if response.status_code not in (408, 429) and not (500 <= response.status_code <= 599)`. -/
def retryableStatus (s : Nat) : Bool :=
  s == 408 || s == 429 || (decide (500 ≤ s) && decide (s ≤ 599))

/-- The `while attempt <= max_attempts` retry loop of `deploy_proposal.py`
lines 101-131, as a function of the network behaviour `net` (outcome of the
n-th `requests.post`) and the jitter draws `jit` (the value of
`random.uniform(0, 0.25)` before attempt n+1).

Arguments: `fuel` is the number of loop iterations still permitted
(`max_attempts + 1 - attempt`, so the `attempt >= max_attempts` test on
line 125 is `fuel = 1` inside an iteration); `attempt` is the 1-based
attempt counter; `lastStatus` is `response.status_code` of the most recent
response, if any (`response` in the Python code is only reassigned when a
response is actually received, not on a connection exception).

Returns (number of requests issued, sleeps performed in order, loop end). -/
def deployLoop (net : Nat → AttemptOutcome) (jit : Nat → ℚ) (base : ℚ) :
    Nat → Nat → Option Nat → Nat × List ℚ × LoopEnd
  | 0, _, _ => (0, [], .noRequest)
  | fuel + 1, attempt, lastStatus =>
    match net attempt with
    | .resp status body d =>
      if status = 200 then
        (1, [], .success status body d)
      else if retryableStatus status = false then
        (1, [], .terminal status body)
      else
        match fuel with
        | 0 => (1, [], .exhausted ("HTTP " ++ toString status ++ ": " ++ body) (some status))
        | fuel' + 1 =>
          let rest := deployLoop net jit base (fuel' + 1) (attempt + 1) (some status)
          (rest.1 + 1, (base * 2 ^ (attempt - 1) + jit attempt) :: rest.2.1, rest.2.2)
    | .exc msg =>
      match fuel with
      | 0 => (1, [], .exhausted msg lastStatus)
      | fuel' + 1 =>
        let rest := deployLoop net jit base (fuel' + 1) (attempt + 1) lastStatus
        (rest.1 + 1, (base * 2 ^ (attempt - 1) + jit attempt) :: rest.2.1, rest.2.2)

/-- Entry into the retry loop: `attempt = 1`, `response = None`,
so `fuel = max_attempts` iterations are permitted. -/
def deployRun (net : Nat → AttemptOutcome) (jit : Nat → ℚ)
    (maxAttempts : Nat) (base : ℚ) : Nat × List ℚ × LoopEnd :=
  deployLoop net jit base maxAttempts 1 none

/-- Number of HTTP requests issued by one run of the Deployment Client. -/
def deployRequests (net : Nat → AttemptOutcome) (jit : Nat → ℚ)
    (maxAttempts : Nat) (base : ℚ) : Nat :=
  (deployRun net jit maxAttempts base).1

/-- The sleeps performed between attempts, in order. -/
def deploySleeps (net : Nat → AttemptOutcome) (jit : Nat → ℚ)
    (maxAttempts : Nat) (base : ℚ) : List ℚ :=
  (deployRun net jit maxAttempts base).2.1

/-- How the retry loop ended. -/
def deployEnd (net : Nat → AttemptOutcome) (jit : Nat → ℚ)
    (maxAttempts : Nat) (base : ℚ) : LoopEnd :=
  (deployRun net jit maxAttempts base).2.2

/-- Python truthiness of an optional string (`None` and `""` are falsy),
used for `if not token` (line 25) and `if alias_final` (line 143). -/
def truthyStr : Option String → Bool
  | none => false
  | some s => !(s == "")

/-- Success-URL resolution of `deploy_proposal.py` lines 139-145:
`aliasFinal` if truthy, else the head of `data.get('alias') or []` if that
list is nonempty, else the fallback `data['url']`, each prefixed with
`https://`. -/
def resolveDeployUrl (d : RespData) : String :=
  if truthyStr d.aliasFinal then
    "https://" ++ d.aliasFinal.getD ""
  else
    match d.aliasList with
    | some (a :: _) => "https://" ++ a
    | _ => "https://" ++ d.rawUrl

/-- The message printed on line 26 when `VERCEL_TOKEN` is unset. -/
def tokenRequiredMsg : String :=
  "[FAIL] VERCEL_TOKEN environment variable is required."

/-- Overall result of the `main` callback of `deploy_proposal.py`:
`ok url` means the callback returns 0 after printing `[OK] DEPLOY SUCCESS`
and writing `last_deployment_url.txt`; `fail msg` means it prints `msg`
and returns 1 (no record written). -/
inductive MainOutcome where
  | ok (url : String)
  | fail (msg : String)
deriving Repr, DecidableEq

/-- The `status_part` of the exhaustion message (line 134). -/
def statusPart : Option Nat → String
  | some s => " (status=" ++ toString s ++ ")"
  | none => ""

/-- The message printed on line 135 when all attempts are exhausted. -/
def exhaustedMsg (maxAttempts : Nat) (lastStatus : Option Nat) (lastError : String) : String :=
  "[FAIL] Deployment request failed after " ++ toString maxAttempts ++
    " attempts" ++ statusPart lastStatus ++ ": " ++ lastError

/-- The message printed on line 118 for a terminal (non-retryable) status. -/
def apiErrorMsg (status : Nat) (body : String) : String :=
  "[FAIL] API Error " ++ toString status ++ ": " ++ body

/-- The `main` callback of `deploy_proposal.py` (lines 20-169), from the
token-presence check through the retry loop to the final outcome.  The
`noRequest` case models lines 138 onward with `response = None`
(only reachable when `max_attempts < 1`): `response.json()` raises
`AttributeError`, caught by the blanket `except Exception` on line 165.
Returns (callback return value as outcome, requests issued, sleeps). -/
def deployMain (token : Option String) (net : Nat → AttemptOutcome)
    (jit : Nat → ℚ) (maxAttempts : Nat) (base : ℚ) :
    MainOutcome × Nat × List ℚ :=
  if truthyStr token = false then
    (.fail tokenRequiredMsg, 0, [])
  else
    match (deployRun net jit maxAttempts base).2.2 with
    | .success _ _ d =>
        (.ok (resolveDeployUrl d),
         (deployRun net jit maxAttempts base).1, (deployRun net jit maxAttempts base).2.1)
    | .terminal s b =>
        (.fail (apiErrorMsg s b),
         (deployRun net jit maxAttempts base).1, (deployRun net jit maxAttempts base).2.1)
    | .exhausted err ls =>
        (.fail (exhaustedMsg maxAttempts ls err),
         (deployRun net jit maxAttempts base).1, (deployRun net jit maxAttempts base).2.1)
    | .noRequest =>
        (.fail "[FAIL] Unexpected error: 'NoneType' object has no attribute 'json'",
         (deployRun net jit maxAttempts base).1, (deployRun net jit maxAttempts base).2.1)

/-- Effect of one `main` run on the `last_deployment_url.txt` record
(lines 151-160): opened with mode `'w'`, so a successful deploy replaces
the whole record; every failure path returns before the write, leaving the
record untouched. -/
def recordAfterDeploy (prev : Option String) (out : MainOutcome) : Option String :=
  match out with
  | .ok url => some url
  | .fail _ => prev

/-- `handle_get_last_url` of `mcp_server.py` lines 843-851: the record
file's content (stripped) if present, else the not-found message. -/
def handleGetLastUrl (store : Option String) : String :=
  match store with
  | some url => "**Last Deployed URL:** " ++ pyStrip url
  | none => "No deployment URL found. Run `deploy_proposal` first."

/-- Exit code of a Python process whose `if __name__ == '__main__'` block
calls a click command object directly (as `deploy_proposal.py` line 172
does) and whose callback returns normally.  click's `BaseCommand.main`
runs in standalone mode: it discards the callback's return value
(its source notes "it's not safe to `ctx.exit(rv)` here") and calls
`ctx.exit()`, i.e. `sys.exit(0)`.  So the integer returned by the
callback never becomes the process exit code. -/
def clickStandaloneExitCode (_callbackReturn : Nat) : Nat := 0

/-- Return value of the `main` callback of `deploy_proposal.py` as an
integer: 0 on the success path, 1 on every failure path. -/
def deployCallbackReturn (token : Option String) (net : Nat → AttemptOutcome)
    (jit : Nat → ℚ) (maxAttempts : Nat) (base : ℚ) : Nat :=
  match (deployMain token net jit maxAttempts base).1 with
  | .ok _ => 0
  | .fail _ => 1

/-- Exit code of the `python deploy_proposal.py ...` process. -/
def deployScriptExitCode (token : Option String) (net : Nat → AttemptOutcome)
    (jit : Nat → ℚ) (maxAttempts : Nat) (base : ℚ) : Nat :=
  clickStandaloneExitCode (deployCallbackReturn token net jit maxAttempts base)

/-! ## Step Runner (`run_script` in `mcp_server.py` and `quick_proposal.py`) -/

/-- Behaviour of the child process spawned by `subprocess.run` with
`timeout=120`: it completes with a return code and captured streams, it
exceeds the timeout (`subprocess.TimeoutExpired`), or spawning raises some
other exception (missing executable, permission error) whose `str()` is
`msg`. -/
inductive ProcBehavior where
  | completes (returncode : Int) (stdout : String) (stderr : String)
  | timesOut
  | launchError (msg : String)
deriving Repr, DecidableEq

/-- The `(success, output)` pair both runners return. -/
structure StepResult where
  succeeded : Bool
  combinedOutput : String
deriving Repr, DecidableEq

/-- `run_script` of `mcp_server.py` lines 82-101: success is
`returncode == 0`, output is `stdout + stderr`; a timeout yields the
synthetic reason; any other exception yields `str(e)`. -/
def run_script (b : ProcBehavior) : StepResult :=
  match b with
  | .completes rc out err => ⟨rc == 0, out ++ err⟩
  | .timesOut => ⟨false, "Command timed out after 120 seconds"⟩
  | .launchError msg => ⟨false, msg⟩

/-- Behaviour of the child process spawned by `run_script` of
`quick_proposal.py` lines 68-83: that `subprocess.run` passes no
`timeout`, so `TimeoutExpired` cannot be raised and there is no timeout
case. -/
inductive ProcBehaviorNoTimeout where
  | completes (returncode : Int) (stdout : String) (stderr : String)
  | launchError (msg : String)
deriving Repr, DecidableEq

/-- `run_script` of `quick_proposal.py` lines 68-83. -/
def quick_run_script (b : ProcBehaviorNoTimeout) : StepResult :=
  match b with
  | .completes rc out err => ⟨rc == 0, out ++ err⟩
  | .launchError msg => ⟨false, msg⟩

/-! ## Result Extractor: `re.search(r'https://[^\s]+\.vercel\.app', output)`

Used at `quick_proposal.py` line 160, `mcp_server.py` lines 635 and 737.
Python `re.search` semantics for this pattern: scan start positions left
to right; at the first position where a match exists, match `https://`
literally, then the greedy `[^\s]+` (longest repetition first, backtracking
down), then the literal `.vercel.app`. -/

/-- The literal tail of the pattern. -/
def vercelSuffix : List Char := ".vercel.app".toList

/-- The literal head of the pattern. -/
def httpsChars : List Char := "https://".toList

/-- Greedy match of `[^\s]+\.vercel\.app` at the head of `rest`: the
largest `k ≥ 1` such that the first `k` characters are non-whitespace and
`.vercel.app` follows literally.  `none` if no such `k` exists. -/
def greedyMatchLen (rest : List Char) : Option Nat :=
  let maxK := (rest.takeWhile (fun c => !pyWs c)).length
  (List.range maxK).reverse.findSome? (fun i =>
    if List.isPrefixOf vercelSuffix (rest.drop (i + 1)) then some (i + 1) else none)

/-- Match of the whole pattern anchored at the head of `l`; returns the
matched text. -/
def matchVercelAt (l : List Char) : Option (List Char) :=
  if List.isPrefixOf httpsChars l then
    (greedyMatchLen (l.drop 8)).map
      (fun k => httpsChars ++ (l.drop 8).take k ++ vercelSuffix)
  else none

/-- `re.search`: first (leftmost) start position with a match. -/
def pySearchVercelAux : List Char → Option (List Char)
  | [] => matchVercelAt []
  | c :: rest =>
    match matchVercelAt (c :: rest) with
    | some m => some m
    | none => pySearchVercelAux rest

/-- `re.search(r'https://[^\s]+\.vercel\.app', s)`, returning
`match.group(0)`. -/
def pySearchVercel (s : String) : Option String :=
  (pySearchVercelAux s.data).map (fun m => String.mk m)

/-- Modelled from the spec (`spec.md` section 4.2): the Result Extractor as
the specification describes it, "a deployment URL matching a scheme+host
pattern, selecting the *last* plausible line-initial match".  Split the
output into lines and take the last line that begins with a match of the
URL pattern, returning that match.  This definition exists only to be
compared against `pySearchVercel`, the extraction the code performs. -/
def specLastLineInitialUrl (s : String) : Option String :=
  ((splitLinesChars s.data).reverse.findSome? (fun line => matchVercelAt line)).map
    (fun m => String.mk m)

/-! ## Pipeline Orchestrator (`handle_quick_proposal`, `mcp_server.py` lines 679-767)

The orchestrator is modelled as a function of everything the outside world
contributes to one run: the `(success, output)` result of each stage's
`run_script` call, the filesystem lookups (sidecar existence, glob hits),
and the file names / JSON dump interpolated into the handlers' texts. -/

/-- Inputs of one `quick_proposal` run. -/
structure QPEnv where
  /-- `client_name` argument. -/
  clientName : String
  /-- `transcript_text` argument. -/
  transcriptText : String
  /-- Result of `run_script('analyze_transcript.py', ...)`. -/
  analyzeStep : StepResult
  /-- `json_file.exists()` inside `handle_analyze_transcript` (line 551). -/
  sidecarExists : Bool
  /-- `json.dumps(data, indent=2)` of the sidecar's content (line 565). -/
  jsonDump : String
  /-- `transcript_file.name`. -/
  transcriptName : String
  /-- `json_file.name`. -/
  jsonName : String
  /-- `str(json_file)`. -/
  jsonPath : String
  /-- Whether `TRANSCRIPTS_DIR.glob(f"slug_*_data.json")` is nonempty (line 701). -/
  jsonGlobNonempty : Bool
  /-- Result of `run_script('generate_proposal.py', ...)`. -/
  generateStep : StepResult
  /-- `output_file.name` inside `handle_generate_proposal`. -/
  genName : String
  /-- `str(output_file)` inside `handle_generate_proposal`. -/
  genPath : String
  /-- Whether `PROPOSALS_DIR.glob(f"slug_*.html")` is nonempty (line 719). -/
  htmlGlobNonempty : Bool
  /-- Result of `run_script('deploy_proposal.py', ...)`. -/
  deployStep : StepResult
  /-- Result of `run_script('drive_storage.py', ['--action', 'sync'])`. -/
  syncStep : StepResult
deriving Repr, DecidableEq

/-- The success message of `handle_analyze_transcript` (lines 555-569). -/
def analyzeSuccessText (e : QPEnv) : String :=
  "✅ Transcript analyzed successfully!\n\n**Files Created:**\n- Transcript: `" ++
  e.transcriptName ++ "`\n- Data JSON: `" ++ e.jsonName ++
  "`\n\n**Extracted Data:**\n```json\n" ++ e.jsonDump ++
  "\n```\n\n**Next Step:** Use `generate_proposal` with client_data_path=\"" ++
  e.jsonPath ++ "\" to create the HTML proposal."

/-- The text returned by `handle_analyze_transcript` (lines 524-571). -/
def analyzeText (e : QPEnv) : String :=
  if e.transcriptText == "" then
    "Error: transcript_text is required"
  else if e.analyzeStep.succeeded = false then
    "Analysis failed:\n" ++ e.analyzeStep.combinedOutput
  else if e.sidecarExists then
    analyzeSuccessText e
  else
    "Analysis completed but JSON not found.\nOutput: " ++ e.analyzeStep.combinedOutput

/-- The text returned by `handle_generate_proposal` (lines 574-610) when
called from the pipeline (a `client_data_path` is always supplied). -/
def generateText (e : QPEnv) : String :=
  if e.generateStep.succeeded = false then
    "Generation failed:\n" ++ e.generateStep.combinedOutput
  else
    "✅ Proposal generated successfully!\n\n**File:** `" ++ e.genName ++
    "`\n**Path:** `" ++ e.genPath ++
    "`\n\n**Next Step:** Use `deploy_proposal` to get a live URL, or open the HTML file locally to preview."

/-- `(Check Vercel dashboard)` — the fallback used when no URL matches. -/
def noUrlFallback : String := "(Check Vercel dashboard)"

/-- The text returned by `handle_deploy_proposal` (lines 613-645) when
called from the pipeline (a `proposal_path` is always supplied). -/
def deployText (e : QPEnv) : String :=
  if e.deployStep.succeeded = false then
    "Deployment failed:\n" ++ e.deployStep.combinedOutput
  else
    "✅ Proposal deployed to Vercel!\n\n**Live URL:** " ++
    ((pySearchVercel e.deployStep.combinedOutput).getD noUrlFallback) ++
    "\n\n**Next Step:** Use `send_proposal_email` to send this link to the client."

/-- The text returned by `handle_sync_to_drive` (lines 854-870). -/
def syncText (e : QPEnv) : String :=
  if e.syncStep.succeeded = false then
    "Drive sync failed:\n" ++ e.syncStep.combinedOutput
  else
    "✅ Files synced to Google Drive!\n\n" ++ e.syncStep.combinedOutput ++
    "\n\n**Google Drive Location:** InstantProd Proposals/\n\nYou can access these files from any device via Google Drive."

/-- Terminal state of a `quick_proposal` run.  The first six constructors
are the early returns of `handle_quick_proposal` (their literal texts are
`"Error: client_name and transcript_text are required"`,
`"Pipeline failed at analysis:\n..."`,
`"Pipeline failed: Could not find generated JSON"`,
`"Pipeline failed at generation:\n..."`,
`"Pipeline failed: Could not find generated HTML"`,
`"Pipeline failed at deployment:\n..."`); `done url syncOk` is the final
summary, with the live URL shown (line 759) and whether the Drive sync
warning was avoided (lines 744-747). -/
inductive QPOutcome where
  | needArgs
  | failedAnalysis (text : String)
  | jsonNotFound
  | failedGeneration (text : String)
  | htmlNotFound
  | failedDeployment (text : String)
  | done (liveUrl : String) (syncOk : Bool)
deriving Repr, DecidableEq

/-- Outcome of a run together with which later stages were actually
invoked (i.e. which `run_script` subprocesses were spawned after
ANALYZE). -/
structure QPResult where
  generateRan : Bool
  deployRan : Bool
  syncRan : Bool
  outcome : QPOutcome
deriving Repr, DecidableEq

/-- `handle_quick_proposal` (lines 679-767): each stage handler's text is
tested for the substring `"failed"` (case-insensitively); between stages,
the artifact lookups must succeed; the URL shown on success is re-extracted
from the deploy handler's text (line 737); the sync stage only toggles the
warning line (lines 744-747). -/
def handleQuickProposal (e : QPEnv) : QPResult :=
  if e.clientName == "" || e.transcriptText == "" then
    ⟨false, false, false, .needArgs⟩
  else if containsFailed (analyzeText e) then
    ⟨false, false, false, .failedAnalysis ("Pipeline failed at analysis:\n" ++ analyzeText e)⟩
  else if e.jsonGlobNonempty = false then
    ⟨false, false, false, .jsonNotFound⟩
  else if containsFailed (generateText e) then
    ⟨true, false, false, .failedGeneration ("Pipeline failed at generation:\n" ++ generateText e)⟩
  else if e.htmlGlobNonempty = false then
    ⟨true, false, false, .htmlNotFound⟩
  else if containsFailed (deployText e) then
    ⟨true, true, false, .failedDeployment ("Pipeline failed at deployment:\n" ++ deployText e)⟩
  else
    ⟨true, true, true,
      .done ((pySearchVercel (deployText e)).getD noUrlFallback)
        (!containsFailed (syncText e))⟩

theorem deployLoop_succ (net : Nat → AttemptOutcome) (jit : Nat → ℚ) (base : ℚ)
    (fuel attempt : Nat) (ls : Option Nat) :
    deployLoop net jit base (fuel + 1) attempt ls =
      (match net attempt with
      | .resp status body d =>
        if status = 200 then
          (1, [], .success status body d)
        else if retryableStatus status = false then
          (1, [], .terminal status body)
        else
          match fuel with
          | 0 => (1, [], .exhausted ("HTTP " ++ toString status ++ ": " ++ body) (some status))
          | fuel' + 1 =>
            let rest := deployLoop net jit base (fuel' + 1) (attempt + 1) (some status)
            (rest.1 + 1, (base * 2 ^ (attempt - 1) + jit attempt) :: rest.2.1, rest.2.2)
      | .exc msg =>
        match fuel with
        | 0 => (1, [], .exhausted msg ls)
        | fuel' + 1 =>
          let rest := deployLoop net jit base (fuel' + 1) (attempt + 1) ls
          (rest.1 + 1, (base * 2 ^ (attempt - 1) + jit attempt) :: rest.2.1, rest.2.2)) := by
  rw [deployLoop]

theorem deployLoop_step_success (net : Nat → AttemptOutcome) (jit : Nat → ℚ) (base : ℚ)
    (fuel attempt : Nat) (ls : Option Nat) (body : String) (d : RespData)
    (hnet : net attempt = .resp 200 body d) :
    deployLoop net jit base (fuel + 1) attempt ls = (1, [], .success 200 body d) := by
  rw [deployLoop_succ, hnet]
  rfl

theorem deployLoop_step_terminal (net : Nat → AttemptOutcome) (jit : Nat → ℚ) (base : ℚ)
    (fuel attempt : Nat) (ls : Option Nat) (status : Nat) (body : String) (d : RespData)
    (hnet : net attempt = .resp status body d) (h200 : status ≠ 200)
    (hr : retryableStatus status = false) :
    deployLoop net jit base (fuel + 1) attempt ls = (1, [], .terminal status body) := by
  rw [deployLoop_succ, hnet]
  simp [h200, hr]

theorem deployLoop_step_retry_resp (net : Nat → AttemptOutcome) (jit : Nat → ℚ) (base : ℚ)
    (fuel attempt : Nat) (ls : Option Nat) (status : Nat) (body : String) (d : RespData)
    (hnet : net attempt = .resp status body d) (h200 : status ≠ 200)
    (hr : retryableStatus status = true) :
    deployLoop net jit base (fuel + 1 + 1) attempt ls =
      ((deployLoop net jit base (fuel + 1) (attempt + 1) (some status)).1 + 1,
       (base * 2 ^ (attempt - 1) + jit attempt) ::
         (deployLoop net jit base (fuel + 1) (attempt + 1) (some status)).2.1,
       (deployLoop net jit base (fuel + 1) (attempt + 1) (some status)).2.2) := by
  rw [deployLoop_succ, hnet]
  simp [h200, hr]

theorem deployLoop_step_last_resp (net : Nat → AttemptOutcome) (jit : Nat → ℚ) (base : ℚ)
    (attempt : Nat) (ls : Option Nat) (status : Nat) (body : String) (d : RespData)
    (hnet : net attempt = .resp status body d) (h200 : status ≠ 200)
    (hr : retryableStatus status = true) :
    deployLoop net jit base (0 + 1) attempt ls =
      (1, [], .exhausted ("HTTP " ++ toString status ++ ": " ++ body) (some status)) := by
  rw [deployLoop_succ, hnet]
  simp [h200, hr]

theorem deployLoop_step_retry_exc (net : Nat → AttemptOutcome) (jit : Nat → ℚ) (base : ℚ)
    (fuel attempt : Nat) (ls : Option Nat) (msg : String)
    (hnet : net attempt = .exc msg) :
    deployLoop net jit base (fuel + 1 + 1) attempt ls =
      ((deployLoop net jit base (fuel + 1) (attempt + 1) ls).1 + 1,
       (base * 2 ^ (attempt - 1) + jit attempt) ::
         (deployLoop net jit base (fuel + 1) (attempt + 1) ls).2.1,
       (deployLoop net jit base (fuel + 1) (attempt + 1) ls).2.2) := by
  rw [deployLoop_succ, hnet]

theorem deployLoop_step_last_exc (net : Nat → AttemptOutcome) (jit : Nat → ℚ) (base : ℚ)
    (attempt : Nat) (ls : Option Nat) (msg : String)
    (hnet : net attempt = .exc msg) :
    deployLoop net jit base (0 + 1) attempt ls = (1, [], .exhausted msg ls) := by
  rw [deployLoop_succ, hnet]

/-- The loop issues at most `fuel` requests. -/
theorem deployLoop_requests_le (net : Nat → AttemptOutcome) (jit : Nat → ℚ) (base : ℚ) :
    ∀ fuel attempt ls, (deployLoop net jit base fuel attempt ls).1 ≤ fuel := by
  intro fuel
  induction fuel with
  | zero => intro attempt ls; rw [deployLoop]
  | succ f ih =>
    intro attempt ls
    cases hnet : net attempt with
    | resp status body d =>
      by_cases h200 : status = 200
      · subst h200
        rw [deployLoop_step_success net jit base f attempt ls body d hnet]
        simp
      · by_cases hr : retryableStatus status = true
        · cases f with
          | zero =>
            rw [deployLoop_step_last_resp net jit base attempt ls status body d hnet h200 hr]
          | succ f' =>
            rw [deployLoop_step_retry_resp net jit base f' attempt ls status body d hnet h200 hr]
            have h := ih (attempt + 1) (some status)
            simp only []
            omega
        · have hr' : retryableStatus status = false := by
            revert hr; cases retryableStatus status <;> simp
          rw [deployLoop_step_terminal net jit base f attempt ls status body d hnet h200 hr']
          simp
    | exc msg =>
      cases f with
      | zero =>
        rw [deployLoop_step_last_exc net jit base attempt ls msg hnet]
      | succ f' =>
        rw [deployLoop_step_retry_exc net jit base f' attempt ls msg hnet]
        have h := ih (attempt + 1) ls
        simp only []
        omega

/-- At least one request is issued whenever an iteration is permitted. -/
theorem deployLoop_requests_pos (net : Nat → AttemptOutcome) (jit : Nat → ℚ) (base : ℚ)
    (fuel attempt : Nat) (ls : Option Nat) :
    1 ≤ (deployLoop net jit base (fuel + 1) attempt ls).1 := by
  cases hnet : net attempt with
  | resp status body d =>
    by_cases h200 : status = 200
    · subst h200
      rw [deployLoop_step_success net jit base fuel attempt ls body d hnet]
    · by_cases hr : retryableStatus status = true
      · cases fuel with
        | zero =>
          rw [deployLoop_step_last_resp net jit base attempt ls status body d hnet h200 hr]
        | succ f' =>
          rw [deployLoop_step_retry_resp net jit base f' attempt ls status body d hnet h200 hr]
          simp only []
          omega
      · have hr' : retryableStatus status = false := by
          revert hr; cases retryableStatus status <;> simp
        rw [deployLoop_step_terminal net jit base fuel attempt ls status body d hnet h200 hr']
  | exc msg =>
    cases fuel with
    | zero =>
      rw [deployLoop_step_last_exc net jit base attempt ls msg hnet]
    | succ f' =>
      rw [deployLoop_step_retry_exc net jit base f' attempt ls msg hnet]
      simp only []
      omega

/-- At most `fuel - 1` sleeps are performed: never one after the last
permitted attempt. -/
theorem deployLoop_sleeps_len (net : Nat → AttemptOutcome) (jit : Nat → ℚ) (base : ℚ) :
    ∀ fuel attempt ls, (deployLoop net jit base fuel attempt ls).2.1.length ≤ fuel - 1 := by
  intro fuel
  induction fuel with
  | zero => intro attempt ls; rw [deployLoop]; simp
  | succ f ih =>
    intro attempt ls
    cases hnet : net attempt with
    | resp status body d =>
      by_cases h200 : status = 200
      · subst h200
        rw [deployLoop_step_success net jit base f attempt ls body d hnet]
        simp
      · by_cases hr : retryableStatus status = true
        · cases f with
          | zero =>
            rw [deployLoop_step_last_resp net jit base attempt ls status body d hnet h200 hr]
            simp
          | succ f' =>
            rw [deployLoop_step_retry_resp net jit base f' attempt ls status body d hnet h200 hr]
            have h := ih (attempt + 1) (some status)
            simp only [List.length_cons]
            omega
        · have hr' : retryableStatus status = false := by
            revert hr; cases retryableStatus status <;> simp
          rw [deployLoop_step_terminal net jit base f attempt ls status body d hnet h200 hr']
          simp
    | exc msg =>
      cases f with
      | zero =>
        rw [deployLoop_step_last_exc net jit base attempt ls msg hnet]
        simp
      | succ f' =>
        rw [deployLoop_step_retry_exc net jit base f' attempt ls msg hnet]
        have h := ih (attempt + 1) ls
        simp only [List.length_cons]
        omega

/-- The k-th sleep (0-based) performed from attempt number `attempt`
onwards is `base * 2 ^ (attempt - 1 + k) + jit (attempt + k)`. -/
theorem deployLoop_sleeps_get (net : Nat → AttemptOutcome) (jit : Nat → ℚ) (base : ℚ) :
    ∀ fuel attempt ls k, 1 ≤ attempt →
      k < (deployLoop net jit base fuel attempt ls).2.1.length →
      (deployLoop net jit base fuel attempt ls).2.1[k]? =
        some (base * 2 ^ (attempt - 1 + k) + jit (attempt + k)) := by
  intro fuel
  induction fuel with
  | zero =>
    intro attempt ls k _ hk
    rw [deployLoop] at hk
    simp at hk
  | succ f ih =>
    intro attempt ls k hatt hk
    cases hnet : net attempt with
    | resp status body d =>
      by_cases h200 : status = 200
      · subst h200
        rw [deployLoop_step_success net jit base f attempt ls body d hnet] at hk
        simp at hk
      · by_cases hr : retryableStatus status = true
        · cases f with
          | zero =>
            rw [deployLoop_step_last_resp net jit base attempt ls status body d hnet h200 hr] at hk
            simp at hk
          | succ f' =>
            rw [deployLoop_step_retry_resp net jit base f' attempt ls status body d hnet h200 hr] at hk ⊢
            cases k with
            | zero => simp
            | succ k' =>
              simp only [List.length_cons] at hk
              have hk' : k' < (deployLoop net jit base (f' + 1) (attempt + 1) (some status)).2.1.length := by
                omega
              have h := ih (attempt + 1) (some status) k' (by omega) hk'
              simp only [List.getElem?_cons_succ]
              rw [h]
              have e1 : attempt + 1 - 1 + k' = attempt - 1 + (k' + 1) := by omega
              have e2 : attempt + 1 + k' = attempt + (k' + 1) := by omega
              rw [e1, e2]
        · have hr' : retryableStatus status = false := by
            revert hr; cases retryableStatus status <;> simp
          rw [deployLoop_step_terminal net jit base f attempt ls status body d hnet h200 hr'] at hk
          simp at hk
    | exc msg =>
      cases f with
      | zero =>
        rw [deployLoop_step_last_exc net jit base attempt ls msg hnet] at hk
        simp at hk
      | succ f' =>
        rw [deployLoop_step_retry_exc net jit base f' attempt ls msg hnet] at hk ⊢
        cases k with
        | zero => simp
        | succ k' =>
          simp only [List.length_cons] at hk
          have hk' : k' < (deployLoop net jit base (f' + 1) (attempt + 1) ls).2.1.length := by
            omega
          have h := ih (attempt + 1) ls k' (by omega) hk'
          simp only [List.getElem?_cons_succ]
          rw [h]
          have e1 : attempt + 1 - 1 + k' = attempt - 1 + (k' + 1) := by omega
          have e2 : attempt + 1 + k' = attempt + (k' + 1) := by omega
          rw [e1, e2]

/-- A `success` loop end always carries status 200 (the only break). -/
theorem deployLoop_success_status (net : Nat → AttemptOutcome) (jit : Nat → ℚ) (base : ℚ) :
    ∀ fuel attempt ls s b d,
      (deployLoop net jit base fuel attempt ls).2.2 = .success s b d → s = 200 := by
  intro fuel
  induction fuel with
  | zero =>
    intro attempt ls s b d h
    rw [deployLoop] at h
    simp at h
  | succ f ih =>
    intro attempt ls s b d h
    cases hnet : net attempt with
    | resp status body dd =>
      by_cases h200 : status = 200
      · subst h200
        rw [deployLoop_step_success net jit base f attempt ls body dd hnet] at h
        simp only [] at h
        cases h
        rfl
      · by_cases hr : retryableStatus status = true
        · cases f with
          | zero =>
            rw [deployLoop_step_last_resp net jit base attempt ls status body dd hnet h200 hr] at h
            simp at h
          | succ f' =>
            rw [deployLoop_step_retry_resp net jit base f' attempt ls status body dd hnet h200 hr] at h
            exact ih (attempt + 1) (some status) s b d h
        · have hr' : retryableStatus status = false := by
            revert hr; cases retryableStatus status <;> simp
          rw [deployLoop_step_terminal net jit base f attempt ls status body dd hnet h200 hr'] at h
          simp at h
    | exc msg =>
      cases f with
      | zero =>
        rw [deployLoop_step_last_exc net jit base attempt ls msg hnet] at h
        simp at h
      | succ f' =>
        rw [deployLoop_step_retry_exc net jit base f' attempt ls msg hnet] at h
        exact ih (attempt + 1) ls s b d h

/-- C1: a DEPLOY attempt is retried (after a backoff sleep) exactly when a
connection-level timeout/connection error occurred or the HTTP status is
408, 429 or in 500-599; any other non-200 status is terminal: the client
returns failure immediately with exactly one request issued and no sleep. -/
theorem deploy_retry_classification
    (net : Nat → AttemptOutcome) (jit : Nat → ℚ) (maxAttempts : Nat) (base : ℚ)
    (hmax : 2 ≤ maxAttempts) :
    (∀ m, net 1 = .exc m →
      2 ≤ deployRequests net jit maxAttempts base ∧
      deploySleeps net jit maxAttempts base ≠ []) ∧
    (∀ s body d, net 1 = .resp s body d → s ≠ 200 →
      if retryableStatus s = true then
        2 ≤ deployRequests net jit maxAttempts base ∧
        deploySleeps net jit maxAttempts base ≠ []
      else
        deployRun net jit maxAttempts base = (1, [], .terminal s body)) := by
  obtain ⟨f, rfl⟩ : ∃ f, maxAttempts = f + 1 + 1 := ⟨maxAttempts - 2, by omega⟩
  constructor
  · intro m hm
    unfold deployRequests deploySleeps deployRun
    rw [deployLoop_step_retry_exc net jit base f 1 none m hm]
    refine ⟨?_, by simp⟩
    have h := deployLoop_requests_pos net jit base f 2 none
    show 2 ≤ (deployLoop net jit base (f + 1) 2 none).1 + 1
    omega
  · intro s body d hs h200
    by_cases hr : retryableStatus s = true
    · rw [if_pos hr]
      unfold deployRequests deploySleeps deployRun
      rw [deployLoop_step_retry_resp net jit base f 1 none s body d hs h200 hr]
      refine ⟨?_, by simp⟩
      have h := deployLoop_requests_pos net jit base f 2 (some s)
      show 2 ≤ (deployLoop net jit base (f + 1) 2 (some s)).1 + 1
      omega
    · rw [if_neg hr]
      have hr' : retryableStatus s = false := by
        revert hr; cases retryableStatus s <;> simp
      unfold deployRun
      rw [deployLoop_step_terminal net jit base (f + 1) 1 none s body d hs h200 hr']

theorem deploy_retry_classification_witness :
    deployRun (fun _ => .resp 403 "Forbidden" ⟨none, none, "u"⟩) (fun _ => 0) 4 1 =
      (1, [], .terminal 403 "Forbidden") := by
  have h := (deploy_retry_classification (fun _ => .resp 403 "Forbidden" ⟨none, none, "u"⟩)
      (fun _ => 0) 4 1 (by omega)).2 403 "Forbidden" ⟨none, none, "u"⟩ rfl (by omega)
  rw [if_neg (by decide : ¬(retryableStatus 403 = true))] at h
  exact h

/-- C2: after every failed retryable attempt n (1 ≤ n < max_attempts) the
client sleeps exactly `base * 2^(n-1) + jit n` seconds (0-based index k
corresponds to attempt n = k+1); no sleep follows the final attempt; and
with the default base 1 (or any base ≥ 1) and jitter within [0, 0.25] the
successive delays are strictly increasing. -/
theorem deploy_backoff_schedule
    (net : Nat → AttemptOutcome) (jit : Nat → ℚ) (maxAttempts : Nat) (base : ℚ)
    (hjit : ∀ n, 0 ≤ jit n ∧ jit n ≤ 1/4) (hbase : 1 ≤ base) :
    (∀ k, k < (deploySleeps net jit maxAttempts base).length →
      (deploySleeps net jit maxAttempts base)[k]? = some (base * 2 ^ k + jit (k + 1))) ∧
    (deploySleeps net jit maxAttempts base).length ≤ maxAttempts - 1 ∧
    (∀ k x y, (deploySleeps net jit maxAttempts base)[k]? = some x →
      (deploySleeps net jit maxAttempts base)[k + 1]? = some y → x < y) := by
  have hfor : ∀ k, k < (deploySleeps net jit maxAttempts base).length →
      (deploySleeps net jit maxAttempts base)[k]? = some (base * 2 ^ k + jit (k + 1)) := by
    intro k hk
    have h := deployLoop_sleeps_get net jit base maxAttempts 1 none k (by omega) hk
    have e1 : 1 - 1 + k = k := by omega
    have e2 : 1 + k = k + 1 := by omega
    rw [e1, e2] at h
    exact h
  refine ⟨hfor, deployLoop_sleeps_len net jit base maxAttempts 1 none, ?_⟩
  intro k x y hx hy
  have hk1 : k + 1 < (deploySleeps net jit maxAttempts base).length := by
    by_contra hcon
    rw [List.getElem?_eq_none (by omega)] at hy
    exact Option.noConfusion hy
  have hxv := hfor k (by omega)
  have hyv := hfor (k + 1) hk1
  rw [hx] at hxv
  rw [hy] at hyv
  have hx' : x = base * 2 ^ k + jit (k + 1) := Option.some.inj hxv
  have hy' : y = base * 2 ^ (k + 1) + jit (k + 1 + 1) := Option.some.inj hyv
  subst hx' hy'
  have h2k : (1:ℚ) ≤ 2 ^ k := by
    calc (1:ℚ) = 1 ^ k := (one_pow k).symm
    _ ≤ 2 ^ k := pow_le_pow_left₀ (by norm_num) (by norm_num) k
  have hb2 : (1:ℚ) ≤ base * 2 ^ k := by nlinarith
  obtain ⟨hj1a, hj1b⟩ := hjit (k + 1)
  obtain ⟨hj2a, hj2b⟩ := hjit (k + 1 + 1)
  rw [pow_succ]
  nlinarith

theorem deploy_backoff_schedule_witness :
    deployEnd
        (fun n => if n ≤ 3 then .resp 500 "err" ⟨none, none, "u"⟩
                  else .resp 200 "ok" ⟨none, none, "u"⟩)
        (fun _ => 1/8) 4 1 = .success 200 "ok" ⟨none, none, "u"⟩ ∧
    deployRequests
        (fun n => if n ≤ 3 then .resp 500 "err" ⟨none, none, "u"⟩
                  else .resp 200 "ok" ⟨none, none, "u"⟩)
        (fun _ => 1/8) 4 1 = 4 ∧
    (deploySleeps
        (fun n => if n ≤ 3 then .resp 500 "err" ⟨none, none, "u"⟩
                  else .resp 200 "ok" ⟨none, none, "u"⟩)
        (fun _ => 1/8) 4 1).length ≤ 3 ∧
    (1 * 2 ^ 0 + (1:ℚ)/8) < 1 * 2 ^ (0 + 1) + (1:ℚ)/8 := by
  have H := deploy_backoff_schedule
      (fun n => if n ≤ 3 then .resp 500 "err" ⟨none, none, "u"⟩
                else .resp 200 "ok" ⟨none, none, "u"⟩)
      (fun _ => 1/8) 4 1 (fun n => by norm_num) (by norm_num)
  refine ⟨by decide, by decide, H.2.1, ?_⟩
  have h0 : 0 < (deploySleeps
      (fun n => if n ≤ 3 then .resp 500 "err" ⟨none, none, "u"⟩
                else .resp 200 "ok" ⟨none, none, "u"⟩)
      (fun _ => (1:ℚ)/8) 4 1).length := by decide
  have h1 : 0 + 1 < (deploySleeps
      (fun n => if n ≤ 3 then .resp 500 "err" ⟨none, none, "u"⟩
                else .resp 200 "ok" ⟨none, none, "u"⟩)
      (fun _ => (1:ℚ)/8) 4 1).length := by decide
  exact H.2.2 0 _ _ (H.1 0 h0) (H.1 (0 + 1) h1)

/-- C3: at most `max_attempts` requests are issued, and exhausting all
attempts yields a terminal failure whose message reports the attempt count
and the last observed error, with no deployment record produced. -/
theorem deploy_attempts_bounded_exhaustion
    (net : Nat → AttemptOutcome) (jit : Nat → ℚ) (maxAttempts : Nat) (base : ℚ)
    (token : String) (prev : Option String) (htok : token ≠ "") :
    deployRequests net jit maxAttempts base ≤ maxAttempts ∧
    (∀ err ls, deployEnd net jit maxAttempts base = .exhausted err ls →
      (deployMain (some token) net jit maxAttempts base).1 =
        .fail (exhaustedMsg maxAttempts ls err) ∧
      recordAfterDeploy prev (deployMain (some token) net jit maxAttempts base).1 = prev) := by
  have hbe : (token == "") = false := beq_eq_false_iff_ne.mpr htok
  constructor
  · exact deployLoop_requests_le net jit base maxAttempts 1 none
  · intro err ls h
    have hmain : (deployMain (some token) net jit maxAttempts base).1 =
        .fail (exhaustedMsg maxAttempts ls err) := by
      unfold deployMain
      rw [if_neg (by simp [truthyStr, hbe])]
      simp only [deployEnd] at h
      rw [h]
    exact ⟨hmain, by simp [hmain, recordAfterDeploy]⟩

theorem deploy_attempts_bounded_exhaustion_witness :
    (deployMain (some "tok") (fun _ => .exc "conn reset") (fun _ => 0) 4 1).1 =
      .fail (exhaustedMsg 4 none "conn reset") ∧
    recordAfterDeploy (some "old")
      (deployMain (some "tok") (fun _ => .exc "conn reset") (fun _ => 0) 4 1).1 = some "old" := by
  exact (deploy_attempts_bounded_exhaustion (fun _ => .exc "conn reset") (fun _ => 0) 4 1
      "tok" (some "old") (by decide)).2 "conn reset" none (by decide)

/-- C6 (code bug): the claim says the process exits with code 1 on any
stage failure or configuration error, but `main` in `deploy_proposal.py`
is a click command invoked in standalone mode, which discards the
callback's `return 1` and exits 0.  With `VERCEL_TOKEN` unset the callback
returns 1 after printing the configuration error, yet the process exit
code is 0. -/
theorem deploy_failure_exit_code_zero
    (net : Nat → AttemptOutcome) (jit : Nat → ℚ) (maxAttempts : Nat) (base : ℚ) :
    deployCallbackReturn none net jit maxAttempts base = 1 ∧
    (deployMain none net jit maxAttempts base).1 = .fail tokenRequiredMsg ∧
    deployScriptExitCode none net jit maxAttempts base = 0 :=
  ⟨rfl, rfl, rfl⟩

/-- C7: the last-deployment record is written only by a deploy whose loop
ended with a definitive 200 success (exhausted or terminal outcomes never
write it); each successful deploy overwrites the whole record, so after two
successive successful deploys `get_last_deployment_url` reports the second
URL only; with no record it reports the not-found message. -/
theorem deployment_record_last_writer
    (token : String) (htok : token ≠ "")
    (net1 net2 : Nat → AttemptOutcome) (jit1 jit2 : Nat → ℚ)
    (max1 max2 : Nat) (base1 base2 : ℚ) (init : Option String) :
    (∀ u, (deployMain (some token) net1 jit1 max1 base1).1 = .ok u →
      ∃ b d, deployEnd net1 jit1 max1 base1 = .success 200 b d ∧ u = resolveDeployUrl d) ∧
    (∀ m prev, recordAfterDeploy prev (.fail m) = prev) ∧
    (∀ u1 u2,
      (deployMain (some token) net1 jit1 max1 base1).1 = .ok u1 →
      (deployMain (some token) net2 jit2 max2 base2).1 = .ok u2 →
      handleGetLastUrl
        (recordAfterDeploy
          (recordAfterDeploy init (deployMain (some token) net1 jit1 max1 base1).1)
          (deployMain (some token) net2 jit2 max2 base2).1) =
        "**Last Deployed URL:** " ++ pyStrip u2) ∧
    handleGetLastUrl none = "No deployment URL found. Run `deploy_proposal` first." := by
  have hbe : (token == "") = false := beq_eq_false_iff_ne.mpr htok
  refine ⟨?_, fun m prev => rfl, ?_, rfl⟩
  · intro u hu
    unfold deployMain at hu
    rw [if_neg (by simp [truthyStr, hbe])] at hu
    cases hend : (deployRun net1 jit1 max1 base1).2.2 with
    | success s b d =>
      rw [hend] at hu
      simp only [] at hu
      have h200 : s = 200 := deployLoop_success_status net1 jit1 base1 max1 1 none s b d hend
      subst h200
      exact ⟨b, d, hend, (MainOutcome.ok.inj hu).symm⟩
    | terminal s b => rw [hend] at hu; exact absurd hu (by simp)
    | exhausted e ls => rw [hend] at hu; exact absurd hu (by simp)
    | noRequest => rw [hend] at hu; exact absurd hu (by simp)
  · intro u1 u2 hu1 hu2
    rw [hu1, hu2]
    rfl

theorem deployment_record_last_writer_witness :
    handleGetLastUrl
      (recordAfterDeploy
        (recordAfterDeploy none
          (deployMain (some "tok")
            (fun _ => .resp 200 "ok" ⟨some "one.vercel.app", none, "r1"⟩) (fun _ => 0) 4 1).1)
        (deployMain (some "tok")
          (fun _ => .resp 200 "ok" ⟨some "two.vercel.app", none, "r2"⟩) (fun _ => 0) 4 1).1) =
      "**Last Deployed URL:** https://two.vercel.app" := by
  have h := (deployment_record_last_writer "tok" (by decide)
      (fun _ => .resp 200 "ok" ⟨some "one.vercel.app", none, "r1"⟩)
      (fun _ => .resp 200 "ok" ⟨some "two.vercel.app", none, "r2"⟩)
      (fun _ => 0) (fun _ => 0) 4 4 1 1 none).2.2.1
      "https://one.vercel.app" "https://two.vercel.app" (by decide) (by decide)
  exact h.trans (by decide)

/-- C8: the Step Runner returns `succeeded=false` with the synthetic
timed-out reason when the child exceeds the timeout, `succeeded=false`
with the raised error's message on a launch failure, and on completion the
merged stdout+stderr with success exactly when the exit code is 0; the
`quick_proposal.py` runner (which passes no timeout) behaves the same on
its two possible cases. -/
theorem step_runner_classification :
    (run_script .timesOut = ⟨false, "Command timed out after 120 seconds"⟩) ∧
    (∀ msg, run_script (.launchError msg) = ⟨false, msg⟩) ∧
    (∀ rc out err, run_script (.completes rc out err) = ⟨rc == 0, out ++ err⟩) ∧
    (∀ rc out err, ((run_script (.completes rc out err)).succeeded = true ↔ rc = 0)) ∧
    (∀ msg, quick_run_script (.launchError msg) = ⟨false, msg⟩) ∧
    (∀ rc out err, quick_run_script (.completes rc out err) = ⟨rc == 0, out ++ err⟩) := by
  refine ⟨rfl, fun msg => rfl, fun rc out err => rfl, fun rc out err => ?_, fun msg => rfl,
    fun rc out err => rfl⟩
  simp [run_script]

/-- C9 counterexample: on a deploy output whose earlier status line already
contains a URL, the extractor returns that first occurrence, not the last
line-initial match the specification describes. -/
theorem extract_url_first_not_last :
    pySearchVercel "Aliased https://first.vercel.app ok\nhttps://second.vercel.app" =
      some "https://first.vercel.app" ∧
    specLastLineInitialUrl "Aliased https://first.vercel.app ok\nhttps://second.vercel.app" =
      some "https://second.vercel.app" ∧
    ("https://first.vercel.app" : String) ≠ "https://second.vercel.app" := by
  refine ⟨by decide, by decide, by decide⟩

/-- C9 amended: the extractor returns the match at the leftmost matchable
start position — the first occurrence of the pattern anywhere in the text,
regardless of lines. -/
theorem extract_url_leftmost (s : String) (i : Nat) (m : List Char)
    (hm : matchVercelAt (s.data.drop i) = some m)
    (hmin : ∀ j, j < i → matchVercelAt (s.data.drop j) = none) :
    pySearchVercel s = some (String.mk m) := by
  have haux : ∀ (l : List Char) (i : Nat),
      matchVercelAt (l.drop i) = some m →
      (∀ j, j < i → matchVercelAt (l.drop j) = none) →
      pySearchVercelAux l = some m := by
    intro l
    induction l with
    | nil =>
      intro i hm _
      cases i with
      | zero => simpa [pySearchVercelAux] using hm
      | succ i' => simpa [pySearchVercelAux] using hm
    | cons c rest ih =>
      intro i hm hmin
      cases i with
      | zero =>
        rw [List.drop_zero] at hm
        simp [pySearchVercelAux, hm]
      | succ i' =>
        have h0 : matchVercelAt (c :: rest) = none := by
          have := hmin 0 (Nat.succ_pos i')
          simpa using this
        have hm' : matchVercelAt (rest.drop i') = some m := by
          simpa using hm
        have hmin' : ∀ j, j < i' → matchVercelAt (rest.drop j) = none := by
          intro j hj
          have := hmin (j + 1) (by omega)
          simpa using this
        simp [pySearchVercelAux, h0]
        exact ih i' hm' hmin'
  unfold pySearchVercel
  rw [haux s.data i hm hmin]
  rfl

theorem extract_url_leftmost_witness :
    pySearchVercel "Aliased https://first.vercel.app ok\nhttps://second.vercel.app" =
      some (String.mk "https://first.vercel.app".toList) := by
  exact extract_url_leftmost
    "Aliased https://first.vercel.app ok\nhttps://second.vercel.app" 8
    "https://first.vercel.app".toList (by decide) (by decide)

theorem listContainsSub_nil_needle : ∀ l : List Char, listContainsSub [] l = true
  | [] => rfl
  | _ :: rest => by
    simp [listContainsSub, List.isPrefixOf]

theorem listContainsSub_append_left (n a b : List Char) (h : listContainsSub n a = true) :
    listContainsSub n (a ++ b) = true := by
  induction a with
  | nil =>
    simp [listContainsSub] at h
    subst h
    exact listContainsSub_nil_needle b
  | cons c a ih =>
    simp only [listContainsSub, Bool.or_eq_true] at h
    rcases h with h | h
    · have hp : n <+: (c :: a) := List.isPrefixOf_iff_prefix.mp h
      have hp2 : n <+: (c :: a) ++ b := hp.trans (List.prefix_append _ _)
      simp only [List.cons_append, listContainsSub, Bool.or_eq_true]
      exact Or.inl (List.isPrefixOf_iff_prefix.mpr (by simpa using hp2))
    · simp only [List.cons_append, listContainsSub, Bool.or_eq_true]
      exact Or.inr (ih h)

theorem string_data_append (s t : String) : (s ++ t).data = s.data ++ t.data := rfl

theorem containsFailed_append_left (s t : String) (h : containsFailed s = true) :
    containsFailed (s ++ t) = true := by
  unfold containsFailed pyLower at h ⊢
  rw [string_data_append, List.map_append]
  exact listContainsSub_append_left _ _ _ h

theorem containsFailed_analysis_failed (x : String) :
    containsFailed ("Analysis failed:\n" ++ x) = true :=
  containsFailed_append_left _ x (by decide)

theorem containsFailed_generation_failed (x : String) :
    containsFailed ("Generation failed:\n" ++ x) = true :=
  containsFailed_append_left _ x (by decide)

theorem containsFailed_deployment_failed (x : String) :
    containsFailed ("Deployment failed:\n" ++ x) = true :=
  containsFailed_append_left _ x (by decide)

theorem containsFailed_sync_failed (x : String) :
    containsFailed ("Drive sync failed:\n" ++ x) = true :=
  containsFailed_append_left _ x (by decide)

theorem analyzeText_of_step_failed (e : QPEnv) (ht : e.transcriptText ≠ "")
    (hf : e.analyzeStep.succeeded = false) :
    analyzeText e = "Analysis failed:\n" ++ e.analyzeStep.combinedOutput := by
  unfold analyzeText
  rw [if_neg (by simp [ht]), if_pos hf]

theorem generateText_of_step_failed (e : QPEnv) (hf : e.generateStep.succeeded = false) :
    generateText e = "Generation failed:\n" ++ e.generateStep.combinedOutput := by
  unfold generateText
  rw [if_pos hf]

theorem syncText_of_step_failed (e : QPEnv) (hf : e.syncStep.succeeded = false) :
    syncText e = "Drive sync failed:\n" ++ e.syncStep.combinedOutput := by
  unfold syncText
  rw [if_pos hf]

theorem analyze_succeeded_of_not_failed (e : QPEnv) (ht : e.transcriptText ≠ "")
    (h : containsFailed (analyzeText e) = false) : e.analyzeStep.succeeded = true := by
  by_contra hb
  have hf : e.analyzeStep.succeeded = false := by
    revert hb; cases e.analyzeStep.succeeded <;> simp
  rw [analyzeText_of_step_failed e ht hf, containsFailed_analysis_failed] at h
  exact Bool.noConfusion h

theorem generate_succeeded_of_not_failed (e : QPEnv)
    (h : containsFailed (generateText e) = false) : e.generateStep.succeeded = true := by
  by_contra hb
  have hf : e.generateStep.succeeded = false := by
    revert hb; cases e.generateStep.succeeded <;> simp
  rw [generateText_of_step_failed e hf, containsFailed_generation_failed] at h
  exact Bool.noConfusion h

/-- C4 amended: DEPLOY (and SYNC) only run when the earlier steps' texts
show no failure and the earlier artifact lookups succeeded; a GENERATE
failure stops the run at GENERATE with DEPLOY and SYNC never invoked; SYNC
only runs when the deploy text shows no failure.  (URL recoverability is
NOT required for DEPLOY to transition forward: see the counterexample.) -/
theorem pipeline_stage_gating
    (e : QPEnv) (hc : e.clientName ≠ "") (ht : e.transcriptText ≠ "") :
    ((handleQuickProposal e).deployRan = true →
      e.analyzeStep.succeeded = true ∧ e.jsonGlobNonempty = true ∧
      e.generateStep.succeeded = true ∧ e.htmlGlobNonempty = true) ∧
    ((handleQuickProposal e).syncRan = true → containsFailed (deployText e) = false) ∧
    (containsFailed (analyzeText e) = false → e.jsonGlobNonempty = true →
      e.generateStep.succeeded = false →
      handleQuickProposal e =
        ⟨true, false, false,
          .failedGeneration ("Pipeline failed at generation:\n" ++ generateText e)⟩ ∧
      generateText e = "Generation failed:\n" ++ e.generateStep.combinedOutput) := by
  have hargs : ¬((e.clientName == "" || e.transcriptText == "") = true) := by
    simp [hc, ht]
  refine ⟨?_, ?_, ?_⟩
  · unfold handleQuickProposal
    split_ifs with h1 h2 h3 h4 h5 <;> intro hd <;>
      try simp at hd
    all_goals
      have ha : containsFailed (analyzeText e) = false := by
        revert h1; cases containsFailed (analyzeText e) <;> simp
    all_goals
      have hg : containsFailed (generateText e) = false := by
        revert h3; cases containsFailed (generateText e) <;> simp
    all_goals
      have hj : e.jsonGlobNonempty = true := by
        revert h2; cases e.jsonGlobNonempty <;> simp
    all_goals
      have hh : e.htmlGlobNonempty = true := by
        revert h4; cases e.htmlGlobNonempty <;> simp
    all_goals
      exact ⟨analyze_succeeded_of_not_failed e ht ha, hj,
        generate_succeeded_of_not_failed e hg, hh⟩
  · unfold handleQuickProposal
    split_ifs with h1 h2 h3 h4 h5 <;> intro hs <;>
      try simp at hs
    all_goals revert h5
    all_goals cases containsFailed (deployText e) <;> simp
  · intro ha hj hgf
    refine ⟨?_, generateText_of_step_failed e hgf⟩
    have hgen : containsFailed (generateText e) = true := by
      rw [generateText_of_step_failed e hgf]
      exact containsFailed_generation_failed _
    unfold handleQuickProposal
    rw [if_neg hargs, if_neg (by simp [ha]), if_neg (by simp [hj]), if_pos (by simp [hgen])]

/-- Environment for the C4 counterexample: every stage script succeeds,
but the deploy output contains no URL matching the extraction pattern. -/
def qpEnvNoUrl : QPEnv :=
  { clientName := "acme"
    transcriptText := "We discussed goals at length on the call."
    analyzeStep := ⟨true, "ok"⟩
    sidecarExists := true
    jsonDump := "\x7b \"client_name\": \"Acme\" \x7d"
    transcriptName := "acme_1.txt"
    jsonName := "acme_1_data.json"
    jsonPath := "acme_1_data.json"
    jsonGlobNonempty := true
    generateStep := ⟨true, "ok"⟩
    genName := "acme_1.html"
    genPath := "acme_1.html"
    htmlGlobNonempty := true
    deployStep := ⟨true, "Deploy finished. See dashboard."⟩
    syncStep := ⟨true, "ok"⟩ }

set_option maxRecDepth 20000 in
/-- C4 counterexample: the DEPLOY step reports success but no live URL is
recoverable from its output; the claim requires the run to move to
`FAILED(DEPLOY)` and stop, yet the pipeline proceeds to SYNC and reports
overall success with the placeholder text in place of a URL. -/
theorem pipeline_no_url_still_success :
    qpEnvNoUrl.deployStep.succeeded = true ∧
    pySearchVercel qpEnvNoUrl.deployStep.combinedOutput = none ∧
    pySearchVercel (deployText qpEnvNoUrl) = none ∧
    handleQuickProposal qpEnvNoUrl = ⟨true, true, true, .done noUrlFallback true⟩ := by
  refine ⟨rfl, by decide, by decide, by decide⟩

/-- Environment for the C4 witness: the GENERATE step fails. -/
def qpEnvGenFail : QPEnv :=
  { clientName := "acme"
    transcriptText := "We discussed goals at length on the call."
    analyzeStep := ⟨true, "ok"⟩
    sidecarExists := true
    jsonDump := "\x7b \"client_name\": \"Acme\" \x7d"
    transcriptName := "acme_1.txt"
    jsonName := "acme_1_data.json"
    jsonPath := "acme_1_data.json"
    jsonGlobNonempty := true
    generateStep := ⟨false, "Traceback: template missing"⟩
    genName := "acme_1.html"
    genPath := "acme_1.html"
    htmlGlobNonempty := true
    deployStep := ⟨true, "https://proposal-acme.vercel.app deployed"⟩
    syncStep := ⟨true, "ok"⟩ }

set_option maxRecDepth 20000 in
theorem pipeline_stage_gating_witness :
    handleQuickProposal qpEnvGenFail =
      ⟨true, false, false,
        .failedGeneration ("Pipeline failed at generation:\n" ++ generateText qpEnvGenFail)⟩ := by
  exact ((pipeline_stage_gating qpEnvGenFail (by decide) (by decide)).2.2
    (by decide) rfl rfl).1

/-- C5: when ANALYZE, GENERATE and DEPLOY all pass their checks, the run's
outcome is `done` with the URL taken from the deploy text — independent of
the sync result, which only toggles the warning flag; a failing sync step
always produces a text containing "failed" and therefore only the warning,
never a `FAILED` transition. -/
theorem sync_failure_nonfatal
    (e : QPEnv) (hc : e.clientName ≠ "") (ht : e.transcriptText ≠ "")
    (ha : containsFailed (analyzeText e) = false)
    (hj : e.jsonGlobNonempty = true)
    (hg : containsFailed (generateText e) = false)
    (hh : e.htmlGlobNonempty = true)
    (hd : containsFailed (deployText e) = false) :
    handleQuickProposal e =
      ⟨true, true, true,
        .done ((pySearchVercel (deployText e)).getD noUrlFallback)
          (!containsFailed (syncText e))⟩ ∧
    (e.syncStep.succeeded = false → containsFailed (syncText e) = true) := by
  constructor
  · unfold handleQuickProposal
    rw [if_neg (by simp [hc, ht]), if_neg (by simp [ha]), if_neg (by simp [hj]),
      if_neg (by simp [hg]), if_neg (by simp [hh]), if_neg (by simp [hd])]
  · intro hsf
    rw [syncText_of_step_failed e hsf]
    exact containsFailed_sync_failed _

/-- Environment for the C5 witness: all three fatal stages succeed and the
Drive sync step fails. -/
def qpEnvSyncFail : QPEnv :=
  { clientName := "acme"
    transcriptText := "We discussed goals at length on the call."
    analyzeStep := ⟨true, "ok"⟩
    sidecarExists := true
    jsonDump := "\x7b \"client_name\": \"Acme\" \x7d"
    transcriptName := "acme_1.txt"
    jsonName := "acme_1_data.json"
    jsonPath := "acme_1_data.json"
    jsonGlobNonempty := true
    generateStep := ⟨true, "ok"⟩
    genName := "acme_1.html"
    genPath := "acme_1.html"
    htmlGlobNonempty := true
    deployStep := ⟨true, "Deploying...\nhttps://proposal-acme.vercel.app"⟩
    syncStep := ⟨false, "credentials.json missing"⟩ }

set_option maxRecDepth 40000 in
theorem sync_failure_nonfatal_witness :
    handleQuickProposal qpEnvSyncFail =
      ⟨true, true, true,
        .done ((pySearchVercel (deployText qpEnvSyncFail)).getD noUrlFallback)
          (!containsFailed (syncText qpEnvSyncFail))⟩ ∧
    containsFailed (syncText qpEnvSyncFail) = true ∧
    (pySearchVercel (deployText qpEnvSyncFail)).getD noUrlFallback =
      "https://proposal-acme.vercel.app" := by
  have h := sync_failure_nonfatal qpEnvSyncFail (by decide) (by decide)
    (by decide) rfl (by decide) rfl (by decide)
  exact ⟨h.1, h.2 rfl, by decide⟩

/-- Environment for C10: the analyze script exits 0 and its JSON sidecar
exists, but the extracted JSON echoed into the success message contains
the word "failed". -/
def qpEnvFailedWord : QPEnv :=
  { clientName := "acme"
    transcriptText := "We discussed goals at length on the call."
    analyzeStep := ⟨true, "ok"⟩
    sidecarExists := true
    jsonDump := "\x7b \"problem\": \"previous vendor failed to deliver\" \x7d"
    transcriptName := "acme_1.txt"
    jsonName := "acme_1_data.json"
    jsonPath := "acme_1_data.json"
    jsonGlobNonempty := true
    generateStep := ⟨true, "ok"⟩
    genName := "acme_1.html"
    genPath := "acme_1.html"
    htmlGlobNonempty := true
    deployStep := ⟨true, "https://proposal-acme.vercel.app"⟩
    syncStep := ⟨true, "ok"⟩ }

set_option maxRecDepth 40000 in
/-- C10: stage failure is decided by the case-insensitive substring
"failed" in the handler's diagnostic text, so a fully successful ANALYZE
stage (script exit 0, sidecar present) whose extracted JSON merely
contains the word "failed" aborts the pipeline at analysis. -/
theorem failed_substring_false_positive :
    qpEnvFailedWord.analyzeStep.succeeded = true ∧
    qpEnvFailedWord.sidecarExists = true ∧
    qpEnvFailedWord.jsonGlobNonempty = true ∧
    containsFailed qpEnvFailedWord.jsonDump = true ∧
    analyzeText qpEnvFailedWord = analyzeSuccessText qpEnvFailedWord ∧
    handleQuickProposal qpEnvFailedWord =
      ⟨false, false, false,
        .failedAnalysis ("Pipeline failed at analysis:\n" ++ analyzeText qpEnvFailedWord)⟩ := by
  refine ⟨rfl, rfl, rfl, by decide, by decide, by decide⟩

end InstantProd
